import Mathlib

/-!
Shallow embedding of the connection-lifecycle controller of
`src/app/components/JitsiMeetComponent.tsx` (the only component of the
repository with decision logic), together with the view shell and the
prop-default resolution.

The component is a React function component.  Its observable behaviour is
captured as a state machine: the controller state collects the React state
hooks (`connectionStatus`, `reconnectAttempts`), the refs
(`jitsiApiRef`, `isReconnectingRef`), the set of live `setInterval`
timers, the live external widget handles, and the cleanup closure React
has registered for the `useEffect`.  External stimuli (script load,
widget events, probe timer ticks, unmount) are events; `step` gives the
code's reaction to each event, including the `useEffect` re-run that a
change of `reconnectAttempts` triggers (modelled by the `pendingReinit`
flag flushed at the end of the same step).

One point needs care to stay faithful to JavaScript closure semantics:
every render creates fresh handler closures capturing that render's
`reconnectAttempts` value.  The interval callback created by
`initializeJitsi` keeps the closure of the render that created it, and —
since the cleanup returned by `initializeJitsi` (line 300) is never
invoked by React — intervals from earlier renders stay alive across
re-initialisations.  A live interval therefore carries the
`reconnectAttempts` value its closure captured: `monitors` is a list of
(interval id, captured counter) pairs.  Event-listener closures never
outlive their widget handle (every counter change replaces the handle and
its listeners, and between the counter update and the effect re-run the
`isReconnectingRef` guard is set), so listeners always read the current
counter; `handleConnectionIssue` models them.  The refs
(`isReconnectingRef`, `jitsiApiRef`) are shared mutable cells, read
currently by every closure.
-/

namespace JitsiWrapper

/-- The values `setConnectionStatus` is called with (the Status Model). -/
inductive ConnStatus where
  | connecting
  | connected
  | reconnecting
  | left
  | closed
  | error
  | failed
deriving DecidableEq

/-- Which cleanup closure the `useEffect` has registered with React:
the script-removal closure (returned on the dynamic-load branch, line 78),
the handle-dispose closure (returned on the already-loaded branch,
line 89), or none. -/
inductive CleanupKind where
  | noCleanup
  | scriptRemoval
  | disposeHandle
deriving DecidableEq

/-- Controller state: React state hooks, refs, live timers and handles. -/
structure CtrlState where
  /-- `connectionStatus` state hook. -/
  connectionStatus : ConnStatus
  /-- `reconnectAttempts` state hook. -/
  reconnectAttempts : Nat
  /-- `isReconnectingRef` (a ref: shared by all closures). -/
  isReconnecting : Bool
  /-- `jitsiApiRef` (a ref): id of the referenced widget handle, if any. -/
  jitsiApi : Option Nat
  /-- ids of constructed widget handles not yet disposed. -/
  liveHandles : List Nat
  /-- live `connectionMonitor` intervals: (interval id, the
  `reconnectAttempts` value captured by the interval's closure). -/
  monitors : List (Nat × Nat)
  /-- fresh-id source for handles and intervals. -/
  nextId : Nat
  /-- how many widget handles have ever been constructed. -/
  handlesCreated : Nat
  /-- whether `window.JitsiMeetExternalAPI` is defined. -/
  apiLoaded : Bool
  /-- whether the dynamically injected script tag is in the document. -/
  scriptAttached : Bool
  /-- the cleanup closure currently registered for the `useEffect`. -/
  registered : CleanupKind
  /-- `reconnectAttempts` changed in this tick, so the `useEffect`
  (whose dependency array contains it, line 95) will re-run. -/
  pendingReinit : Bool
deriving DecidableEq

def MAX_RECONNECT_ATTEMPTS : Nat := 3

/-- `clearInterval` on interval id `m`. -/
def clearInterval (m : Nat) (ms : List (Nat × Nat)) : List (Nat × Nat) :=
  ms.filter (fun p => p.1 != m)

/-- `handleConnectionIssue` (lines 313-327) as invoked from a closure that
captured `reconnectAttempts = captured`.  Reads the shared
`isReconnectingRef` first; on passing the guard it sets the ref, sets
status `reconnecting`, and either increments the counter (functional
update, so the current value) — which makes the `useEffect` re-run — or
sets status `failed`. -/
def handleConnectionIssueAt (captured : Nat) (s : CtrlState) : CtrlState :=
  if s.isReconnecting then s
  else
    let s1 := { s with isReconnecting := true,
                       connectionStatus := ConnStatus.reconnecting }
    if captured < MAX_RECONNECT_ATTEMPTS then
      { s1 with reconnectAttempts := s1.reconnectAttempts + 1,
                pendingReinit := true }
    else
      { s1 with connectionStatus := ConnStatus.failed }

/-- `handleConnectionIssue` as invoked from the closures of the current
render (the widget event listeners): captured counter = current counter. -/
def handleConnectionIssue (s : CtrlState) : CtrlState :=
  handleConnectionIssueAt s.reconnectAttempts s

/-- Lines 116-119: dispose the previous widget instance if it exists. -/
def disposeCurrent (s : CtrlState) : CtrlState :=
  match s.jitsiApi with
  | some h => { s with jitsiApi := none, liveHandles := s.liveHandles.erase h }
  | none => s

/-- `initializeJitsi` (lines 108-308) with `ok` telling whether the
`new window.JitsiMeetExternalAPI(...)` constructor returns normally
(`ok = false` models the `catch` branch, lines 304-307).  On success it
stores the new handle, sets status `connected`, clears the in-flight
flag, and starts a fresh `connectionMonitor` interval whose closure
captures the current counter.  The previous interval is not cleared. -/
def initializeJitsi (ok : Bool) (s : CtrlState) : CtrlState :=
  if !s.apiLoaded then { s with connectionStatus := ConnStatus.error }
  else
    let s1 := disposeCurrent s
    if ok then
      { s1 with jitsiApi := some s1.nextId,
                liveHandles := s1.liveHandles ++ [s1.nextId],
                handlesCreated := s1.handlesCreated + 1,
                connectionStatus := ConnStatus.connected,
                isReconnecting := false,
                monitors := s1.monitors ++ [(s1.nextId + 1, s1.reconnectAttempts)],
                nextId := s1.nextId + 2 }
    else
      { s1 with connectionStatus := ConnStatus.error }

/-- The `useEffect` body (lines 67-95): if the external API global is
absent, inject the script tag and register the script-removal cleanup;
otherwise call `initializeJitsi` and register the dispose cleanup. -/
def effectBody (ok : Bool) (s : CtrlState) : CtrlState :=
  if s.apiLoaded then
    { initializeJitsi ok s with registered := CleanupKind.disposeHandle }
  else
    { s with scriptAttached := true, registered := CleanupKind.scriptRemoval }

/-- Run the cleanup closure React has registered (what React actually
invokes on unmount or before an effect re-run).  Note: the closure
returned by `initializeJitsi` itself (lines 300-303, clearing the
interval) is *not* registered anywhere — `initializeJitsi`'s return value
is discarded at lines 74 and 85 — so no branch clears the interval. -/
def runCleanup (s : CtrlState) : CtrlState :=
  match s.registered with
  | CleanupKind.noCleanup => s
  | CleanupKind.scriptRemoval =>
      { s with scriptAttached := false, registered := CleanupKind.noCleanup }
  | CleanupKind.disposeHandle =>
      { disposeCurrent s with registered := CleanupKind.noCleanup }

/-- The `useEffect` re-run that a `reconnectAttempts` change triggers
(dependency array, line 95): old cleanup, then the effect body. -/
def flush (ok : Bool) (s : CtrlState) : CtrlState :=
  if s.pendingReinit then
    effectBody ok (runCleanup { s with pendingReinit := false })
  else s

/-- External stimuli.  `ok` arguments tell whether a widget construction
attempted while reacting to the event returns normally. -/
inductive Event where
  /-- the mount-time `useEffect` run. -/
  | effectMount (ok : Bool)
  /-- `script.onload` fired: the global becomes available, then
  `initializeJitsi` runs (line 74). -/
  | scriptLoaded (ok : Bool)
  /-- `script.onerror` fired (line 75 → lines 100-103). -/
  | scriptError
  /-- widget `connectionEstablished` event (lines 234-237). -/
  | connectionEstablished
  /-- widget `videoConferenceJoined` event (lines 335-338). -/
  | videoConferenceJoined
  /-- widget `videoConferenceLeft` event (lines 340-343). -/
  | videoConferenceLeft
  /-- widget `readyToClose` event (lines 330-333). -/
  | readyToClose
  /-- widget `connectionFailed` event (lines 345-348). -/
  | connectionFailed (ok : Bool)
  /-- widget `suspendDetected` event (lines 359-362). -/
  | suspendDetected (ok : Bool)
  /-- widget `errorOccurred` event; `serviceOrLimit` tells whether the
  payload mentions a service/limit condition (lines 350-357). -/
  | errorOccurred (serviceOrLimit : Bool) (ok : Bool)
  /-- the `connectionMonitor` interval with id `m` fires (lines 207-227);
  `attached` is `document.contains(jitsiContainerRef.current)`,
  `queryThrows` whether `getNumberOfParticipants()` throws. -/
  | probeTick (m : Nat) (attached : Bool) (queryThrows : Bool) (ok : Bool)
  /-- unmount: React invokes the registered cleanup. -/
  | teardown
deriving DecidableEq

/-- Reaction of the component to one event, including the effect re-run
triggered by a counter change (flushed in the same step). -/
def step : Event → CtrlState → CtrlState
  | Event.effectMount ok, s => effectBody ok s
  | Event.scriptLoaded ok, s => initializeJitsi ok { s with apiLoaded := true }
  | Event.scriptError, s => { s with connectionStatus := ConnStatus.error }
  | Event.connectionEstablished, s =>
      { s with connectionStatus := ConnStatus.connected }
  | Event.videoConferenceJoined, s =>
      { s with connectionStatus := ConnStatus.connected }
  | Event.videoConferenceLeft, s =>
      { s with connectionStatus := ConnStatus.left }
  | Event.readyToClose, s =>
      { s with connectionStatus := ConnStatus.closed }
  | Event.connectionFailed ok, s => flush ok (handleConnectionIssue s)
  | Event.suspendDetected ok, s => flush ok (handleConnectionIssue s)
  | Event.errorOccurred svc ok, s =>
      if svc then flush ok (handleConnectionIssue s) else s
  | Event.probeTick m att qt ok, s =>
      match s.monitors.lookup m with
      | none => s
      | some captured =>
          if s.jitsiApi.isNone || !att then
            { s with monitors := clearInterval m s.monitors }
          else if qt then
            flush ok (handleConnectionIssueAt captured
              { s with monitors := clearInterval m s.monitors })
          else s
  | Event.teardown, s => runCleanup s

/-- Freshly rendered component, effect not yet run (`useState` initial
values, line 59 and 61); `api` is whether the external global is already
defined at mount time. -/
def initState (api : Bool) : CtrlState :=
  { connectionStatus := ConnStatus.connecting
    reconnectAttempts := 0
    isReconnecting := false
    jitsiApi := none
    liveHandles := []
    monitors := []
    nextId := 0
    handlesCreated := 0
    apiLoaded := api
    scriptAttached := false
    registered := CleanupKind.noCleanup
    pendingReinit := false }

/-- Process a sequence of events. -/
def run (s : CtrlState) : List Event → CtrlState
  | [] => s
  | e :: es => run (step e s) es

/-! ### View shell -/

/-- `renderConnectionStatus` (lines 365-393): the status text rendered
for a given status and attempt counter; `none` for the `default` branch
(which returns `null`). -/
def renderConnectionStatus (status : ConnStatus) (attempts : Nat) : Option String :=
  match status with
  | ConnStatus.connecting => some "Connecting to conference..."
  | ConnStatus.reconnecting =>
      some ("Connection interrupted. Reconnecting... (Attempt "
        ++ toString attempts ++ "/" ++ toString MAX_RECONNECT_ATTEMPTS ++ ")")
  | ConnStatus.error =>
      some "Failed to connect to the conference. Please try again."
  | ConnStatus.failed =>
      some "Could not reconnect after multiple attempts. Please reload the page."
  | _ => none

/-- What the component's JSX (lines 395-411) renders: an optional status
line, and the widget mount container. -/
structure RenderedView where
  statusLine : Option String
  mountElement : Bool
deriving DecidableEq

/-- The render output: the status line is rendered only when
`connectionStatus !== "connected"` (line 397), and the mount container
div (lines 399-409) is rendered unconditionally beneath it. -/
def renderComponent (s : CtrlState) : RenderedView :=
  { statusLine :=
      if s.connectionStatus ≠ ConnStatus.connected then
        renderConnectionStatus s.connectionStatus s.reconnectAttempts
      else none
    mountElement := true }

/-! ### Props and widget-construction parameters -/

/-- The component's props (lines 28-34): `roomName` required, the rest
optional. -/
structure JitsiMeetProps where
  roomName : String
  displayName : Option String
  domain : Option String
  startWithAudioMuted : Option Bool
  startWithVideoMuted : Option Bool

/-- The props after ES default-parameter resolution (lines 47-53). -/
structure ResolvedProps where
  roomName : String
  displayName : String
  domain : String
  startWithAudioMuted : Bool
  startWithVideoMuted : Bool

/-- Destructuring with defaults (lines 47-53). -/
def resolveProps (p : JitsiMeetProps) : ResolvedProps :=
  { roomName := p.roomName
    displayName := p.displayName.getD "User"
    domain := p.domain.getD "meet.jit.si"
    startWithAudioMuted := p.startWithAudioMuted.getD false
    startWithVideoMuted := p.startWithVideoMuted.getD false }

/-- The fields of the `options` object (lines 123-198) that depend on the
props, plus a few fixed ones. -/
structure JitsiMeetAPIOptions where
  roomName : String
  width : String
  height : String
  userInfoDisplayName : String
  prejoinPageEnabled : Bool
  startWithAudioMuted : Bool
  startWithVideoMuted : Bool
  disableThirdPartyRequests : Bool
  disableDeepLinking : Bool

/-- The `options` object `initializeJitsi` builds (lines 123-198). -/
def jitsiOptions (p : ResolvedProps) : JitsiMeetAPIOptions :=
  { roomName := p.roomName
    width := "100%"
    height := "100%"
    userInfoDisplayName := p.displayName
    prejoinPageEnabled := false
    startWithAudioMuted := p.startWithAudioMuted
    startWithVideoMuted := p.startWithVideoMuted
    disableThirdPartyRequests := true
    disableDeepLinking := true }

/-- The first constructor argument of
`new window.JitsiMeetExternalAPI(domain, options)` (line 201); the same
domain also forms the script URL (line 71). -/
def apiDomain (p : ResolvedProps) : String := p.domain

/-! ### Claims -/

/-- C1 (counterexample): after one failure handled from a successfully
started component, `reconnectAttempts = 1`; delivering
`connectionEstablished` leaves the counter at 1, not 0 — the listener
(lines 234-237) only sets the status and never calls
`setReconnectAttempts(0)`. -/
theorem c1_counterexample :
    1 ≤ (run (initState true)
          [Event.effectMount true, Event.connectionFailed true]).reconnectAttempts ∧
    (step Event.connectionEstablished
      (run (initState true)
        [Event.effectMount true, Event.connectionFailed true])).connectionStatus
      = ConnStatus.connected ∧
    (step Event.connectionEstablished
      (run (initState true)
        [Event.effectMount true, Event.connectionFailed true])).reconnectAttempts
      ≠ 0 := by
  decide

/-- C1 (amended): in any state with `reconnectAttempts ≥ 1`, delivering
`connectionEstablished` yields status `connected` and leaves the
reconnect counter unchanged (it is never reset anywhere in the code). -/
theorem c1_amended (s : CtrlState) (h : 1 ≤ s.reconnectAttempts) :
    (step Event.connectionEstablished s).connectionStatus = ConnStatus.connected ∧
    (step Event.connectionEstablished s).reconnectAttempts = s.reconnectAttempts :=
  ⟨rfl, rfl⟩

/-- C1 (witness): the amended statement instantiated after one counted
failure. -/
theorem c1_amended_witness :
    1 ≤ (run (initState true)
          [Event.effectMount true, Event.connectionFailed true]).reconnectAttempts ∧
    ((step Event.connectionEstablished
        (run (initState true)
          [Event.effectMount true, Event.connectionFailed true])).connectionStatus
        = ConnStatus.connected ∧
     (step Event.connectionEstablished
        (run (initState true)
          [Event.effectMount true, Event.connectionFailed true])).reconnectAttempts
        = (run (initState true)
            [Event.effectMount true, Event.connectionFailed true]).reconnectAttempts) :=
  ⟨by decide, c1_amended _ (by decide)⟩

/-- C2 (code evaluated at the failing input): after a successful start
and three handled failures, four `connectionMonitor` intervals are live
(nothing ever clears a previous one), the oldest with interval id 1 and
captured counter 0.  When that stale interval fires and its probe query
throws, its closure's guard `reconnectAttempts < MAX_RECONNECT_ATTEMPTS`
compares the captured 0, so the functional update pushes the current
counter to 4 > MAX_RECONNECT_ATTEMPTS = 3. -/
theorem c2_counter_overflow :
    MAX_RECONNECT_ATTEMPTS = 3 ∧
    (run (initState true)
      [Event.effectMount true, Event.connectionFailed true,
       Event.connectionFailed true, Event.connectionFailed true]).monitors.lookup 1
      = some 0 ∧
    (run (initState true)
      [Event.effectMount true, Event.connectionFailed true,
       Event.connectionFailed true, Event.connectionFailed true,
       Event.probeTick 1 true true true]).reconnectAttempts = 4 := by
  decide

/-- C3 (counterexample): from the post-start state (`connected`,
counter 0), three `connectionFailed` events leave the component
`connected`, not `failed`, and the third failure's retry constructs a
fourth widget handle (so a handle is created after the third failure). -/
theorem c3_counterexample :
    (run (initState true) [Event.effectMount true]).connectionStatus
      = ConnStatus.connected ∧
    (run (initState true) [Event.effectMount true]).reconnectAttempts = 0 ∧
    (run (initState true)
      [Event.effectMount true, Event.connectionFailed true,
       Event.connectionFailed true, Event.connectionFailed true]).connectionStatus
      ≠ ConnStatus.failed ∧
    (run (initState true)
      [Event.effectMount true, Event.connectionFailed true,
       Event.connectionFailed true]).handlesCreated = 3 ∧
    (run (initState true)
      [Event.effectMount true, Event.connectionFailed true,
       Event.connectionFailed true, Event.connectionFailed true]).handlesCreated
      = 4 := by
  decide

/-- C3 (amended): from any successfully started state (`connected`,
counter 0, not reconnecting, handle live, dispose cleanup registered),
three consecutive `connectionFailed` events each trigger a retry that
constructs a new handle: afterwards the counter is 3 but the state is
`connected` and three new handles were constructed.  Only a fourth
consecutive failure reaches `failed`, and it constructs no handle. -/
theorem c3_amended (s : CtrlState) (h : Nat)
    (hS : s.connectionStatus = ConnStatus.connected)
    (hA : s.reconnectAttempts = 0)
    (hR : s.isReconnecting = false)
    (hP : s.pendingReinit = false)
    (hL : s.apiLoaded = true)
    (hJ : s.jitsiApi = some h)
    (hC : s.registered = CleanupKind.disposeHandle) :
    (run s [Event.connectionFailed true, Event.connectionFailed true,
            Event.connectionFailed true]).reconnectAttempts = 3 ∧
    (run s [Event.connectionFailed true, Event.connectionFailed true,
            Event.connectionFailed true]).connectionStatus = ConnStatus.connected ∧
    (run s [Event.connectionFailed true, Event.connectionFailed true,
            Event.connectionFailed true]).handlesCreated = s.handlesCreated + 3 ∧
    (run s [Event.connectionFailed true, Event.connectionFailed true,
            Event.connectionFailed true, Event.connectionFailed true]).connectionStatus
      = ConnStatus.failed ∧
    (run s [Event.connectionFailed true, Event.connectionFailed true,
            Event.connectionFailed true, Event.connectionFailed true]).reconnectAttempts
      = 3 ∧
    (run s [Event.connectionFailed true, Event.connectionFailed true,
            Event.connectionFailed true, Event.connectionFailed true]).handlesCreated
      = s.handlesCreated + 3 := by
  simp [run, step, flush, handleConnectionIssue, handleConnectionIssueAt,
        runCleanup, effectBody, initializeJitsi, disposeCurrent,
        MAX_RECONNECT_ATTEMPTS, hS, hA, hR, hP, hL, hJ, hC]

/-- C3 (witness): the amended statement instantiated at the concrete
post-start state. -/
theorem c3_amended_witness :
    (run (initState true) [Event.effectMount true]).reconnectAttempts = 0 ∧
    ((run (run (initState true) [Event.effectMount true])
        [Event.connectionFailed true, Event.connectionFailed true,
         Event.connectionFailed true]).reconnectAttempts = 3 ∧
     (run (run (initState true) [Event.effectMount true])
        [Event.connectionFailed true, Event.connectionFailed true,
         Event.connectionFailed true]).connectionStatus = ConnStatus.connected ∧
     (run (run (initState true) [Event.effectMount true])
        [Event.connectionFailed true, Event.connectionFailed true,
         Event.connectionFailed true]).handlesCreated
        = (run (initState true) [Event.effectMount true]).handlesCreated + 3 ∧
     (run (run (initState true) [Event.effectMount true])
        [Event.connectionFailed true, Event.connectionFailed true,
         Event.connectionFailed true, Event.connectionFailed true]).connectionStatus
        = ConnStatus.failed ∧
     (run (run (initState true) [Event.effectMount true])
        [Event.connectionFailed true, Event.connectionFailed true,
         Event.connectionFailed true, Event.connectionFailed true]).reconnectAttempts
        = 3 ∧
     (run (run (initState true) [Event.effectMount true])
        [Event.connectionFailed true, Event.connectionFailed true,
         Event.connectionFailed true, Event.connectionFailed true]).handlesCreated
        = (run (initState true) [Event.effectMount true]).handlesCreated + 3) :=
  ⟨by decide,
   c3_amended (run (initState true) [Event.effectMount true]) 0
     (by decide) (by decide) (by decide) (by decide) (by decide) (by decide)
     (by decide)⟩

/-- C4 (code evaluated at the failing inputs): teardown leaks.  On the
dynamic-load path the registered cleanup only removes the script tag, so
unmounting leaves the widget handle undisposed and the probe interval
live; on the already-loaded path the handle is disposed but the probe
interval — whose clearing closure (lines 300-303) is returned from
`initializeJitsi` and discarded at lines 74/85 — is still live. -/
theorem c4_teardown_leaks :
    (run (initState false)
      [Event.effectMount true, Event.scriptLoaded true, Event.teardown]).liveHandles
      = [0] ∧
    (run (initState false)
      [Event.effectMount true, Event.scriptLoaded true, Event.teardown]).monitors
      = [(1, 0)] ∧
    (run (initState true) [Event.effectMount true, Event.teardown]).liveHandles
      = [] ∧
    (run (initState true) [Event.effectMount true, Event.teardown]).monitors
      = [(1, 0)] := by
  decide

/-- C5 (counterexample): with the external entry point available, the
mount effect constructs the handle and the state becomes `connected`
immediately (line 203), not `connecting` as the claim states. -/
theorem c5_counterexample :
    (initState true).apiLoaded = true ∧
    (step (Event.effectMount true) (initState true)).jitsiApi = some 0 ∧
    (step (Event.effectMount true) (initState true)).connectionStatus
      ≠ ConnStatus.connecting := by
  decide

/-- C5 (amended): `initializeJitsi` reaches `connected` exactly when the
entry point is available and construction returns normally, and `error`
exactly otherwise; on success the new handle is stored, on a construction
throw no handle remains referenced; a script load error also yields
`error`. -/
theorem c5_amended (s : CtrlState) (ok : Bool) :
    ((initializeJitsi ok s).connectionStatus = ConnStatus.connected ↔
      (s.apiLoaded = true ∧ ok = true)) ∧
    ((initializeJitsi ok s).connectionStatus = ConnStatus.error ↔
      (s.apiLoaded = false ∨ ok = false)) ∧
    (s.apiLoaded = true → ok = true →
      (initializeJitsi ok s).jitsiApi = some s.nextId) ∧
    (s.apiLoaded = true → ok = false →
      (initializeJitsi ok s).jitsiApi = none) ∧
    (step Event.scriptError s).connectionStatus = ConnStatus.error := by
  cases hA : s.apiLoaded <;> cases ok <;> cases hJ : s.jitsiApi <;>
    simp [initializeJitsi, disposeCurrent, step, hA, hJ]

/-- C5 (witness): the amended statement instantiated at the initial state
with the entry point available and a successful construction. -/
theorem c5_amended_witness :
    ((initializeJitsi true (initState true)).connectionStatus
        = ConnStatus.connected ↔
      ((initState true).apiLoaded = true ∧ true = true)) ∧
    (initializeJitsi true (initState true)).jitsiApi
      = some (initState true).nextId :=
  ⟨(c5_amended (initState true) true).1,
   (c5_amended (initState true) true).2.2.1 rfl rfl⟩

/-- C6 (counterexample): with a live probe interval and a live handle,
a probe tick that finds the mount point detached (and whose query does
not throw) only cancels its own interval — the reconnect policy is not
invoked: status and counter are unchanged, against the claim that both
detected-failure cases invoke it. -/
theorem c6_counterexample :
    (run (initState true) [Event.effectMount true]).monitors.lookup 1 = some 0 ∧
    (run (initState true) [Event.effectMount true]).jitsiApi.isSome = true ∧
    step (Event.probeTick 1 false false true)
        (run (initState true) [Event.effectMount true])
      = { run (initState true) [Event.effectMount true] with monitors := [] } ∧
    (step (Event.probeTick 1 false false true)
        (run (initState true) [Event.effectMount true])).reconnectAttempts = 0 ∧
    (step (Event.probeTick 1 false false true)
        (run (initState true) [Event.effectMount true])).connectionStatus
      = ConnStatus.connected := by
  decide

/-- C6 (amended): while a probe interval is live, a tick whose
participant-count query throws (handle live, mount attached) invokes the
reconnect policy — with the counter value its closure captured — and
cancels its own interval: in the successful-retry case the counter
increments, a new handle is constructed, and the surviving intervals are
the other ones plus the fresh one.  A tick that finds the mount point no
longer attached cancels its own interval without invoking the reconnect
policy, changing nothing else (no handle hypothesis is needed for that
case). -/
theorem c6_amended (s : CtrlState) (m k : Nat) (ok qt : Bool)
    (hm : s.monitors.lookup m = some k) :
    (step (Event.probeTick m false qt ok) s
      = { s with monitors := clearInterval m s.monitors }) ∧
    (s.jitsiApi.isSome = true →
      step (Event.probeTick m true true ok) s
        = flush ok (handleConnectionIssueAt k
            { s with monitors := clearInterval m s.monitors })) ∧
    (s.jitsiApi.isSome = true →
      s.isReconnecting = false → k < MAX_RECONNECT_ATTEMPTS →
      s.apiLoaded = true → s.registered = CleanupKind.disposeHandle → ok = true →
      (step (Event.probeTick m true true ok) s).reconnectAttempts
        = s.reconnectAttempts + 1 ∧
      (step (Event.probeTick m true true ok) s).monitors
        = clearInterval m s.monitors ++ [(s.nextId + 1, s.reconnectAttempts + 1)] ∧
      (step (Event.probeTick m true true ok) s).handlesCreated
        = s.handlesCreated + 1) := by
  refine ⟨?_, ?_, ?_⟩
  · simp [step, hm]
  · intro hj
    obtain ⟨a, hJ⟩ := Option.isSome_iff_exists.mp hj
    simp [step, hm, hJ]
  · intro hj hR hk hL hC hok
    subst hok
    obtain ⟨a, hJ⟩ := Option.isSome_iff_exists.mp hj
    simp [step, flush, handleConnectionIssueAt, runCleanup, effectBody,
          initializeJitsi, disposeCurrent, hm, hJ, hR, hk, hL, hC]

/-- C6 (witness): the amended statement instantiated at the concrete
post-start state, interval id 1 with captured counter 0. -/
theorem c6_amended_witness :
    (run (initState true) [Event.effectMount true]).monitors.lookup 1 = some 0 ∧
    (step (Event.probeTick 1 true true true)
        (run (initState true) [Event.effectMount true])).reconnectAttempts
      = (run (initState true) [Event.effectMount true]).reconnectAttempts + 1 ∧
    (step (Event.probeTick 1 false false true)
        (run (initState true) [Event.effectMount true])
      = { run (initState true) [Event.effectMount true] with
            monitors := clearInterval 1
              (run (initState true) [Event.effectMount true]).monitors }) :=
  ⟨by decide,
   ((c6_amended (run (initState true) [Event.effectMount true]) 1 0 true true
       (by decide)).2.2
     (by decide) (by decide) (by decide) (by decide) (by decide) rfl).1,
   (c6_amended (run (initState true) [Event.effectMount true]) 1 0 true false
       (by decide)).1⟩

/-- C7: the reconnect policy is idempotent.  For any two captured counter
values (the probe's closure and an event listener's may differ), a second
invocation in the same tick is a no-op, because the first sets the shared
`isReconnectingRef`; and while a reconnect is already in flight any
invocation is a no-op. -/
theorem c7_reconnect_idempotent (s : CtrlState) (k1 k2 : Nat) :
    handleConnectionIssueAt k2 (handleConnectionIssueAt k1 s)
      = handleConnectionIssueAt k1 s ∧
    (s.isReconnecting = true → handleConnectionIssueAt k1 s = s) := by
  cases hR : s.isReconnecting
  · by_cases hk : k1 < MAX_RECONNECT_ATTEMPTS <;>
      simp [handleConnectionIssueAt, hR, hk]
  · simp [handleConnectionIssueAt, hR]

/-- C7 (witness): instantiated at the terminal `failed` state, whose
in-flight flag is set. -/
theorem c7_reconnect_idempotent_witness :
    handleConnectionIssueAt 0
        (handleConnectionIssueAt 0
          (run (initState true)
            [Event.effectMount true, Event.connectionFailed true,
             Event.connectionFailed true, Event.connectionFailed true,
             Event.connectionFailed true]))
      = handleConnectionIssueAt 0
          (run (initState true)
            [Event.effectMount true, Event.connectionFailed true,
             Event.connectionFailed true, Event.connectionFailed true,
             Event.connectionFailed true]) ∧
    handleConnectionIssueAt 0
        (run (initState true)
          [Event.effectMount true, Event.connectionFailed true,
           Event.connectionFailed true, Event.connectionFailed true,
           Event.connectionFailed true])
      = run (initState true)
          [Event.effectMount true, Event.connectionFailed true,
           Event.connectionFailed true, Event.connectionFailed true,
           Event.connectionFailed true] :=
  ⟨(c7_reconnect_idempotent _ 0 0).1,
   (c7_reconnect_idempotent _ 0 0).2 (by decide)⟩

/-- C8: error routing.  A script load error goes directly to `error` and
changes nothing else; a construction throw goes to `error` with counter,
handle count and in-flight flag untouched (no retry); and
`connectionFailed`, `suspendDetected`, a service/limit `errorOccurred`,
and a throwing probe query all route into the reconnect policy, while a
non-service `errorOccurred` does nothing. -/
theorem c8_error_routing (s : CtrlState) (ok : Bool) :
    (step Event.scriptError s = { s with connectionStatus := ConnStatus.error }) ∧
    (s.apiLoaded = true →
      (initializeJitsi false s).connectionStatus = ConnStatus.error ∧
      (initializeJitsi false s).reconnectAttempts = s.reconnectAttempts ∧
      (initializeJitsi false s).handlesCreated = s.handlesCreated ∧
      (initializeJitsi false s).isReconnecting = s.isReconnecting) ∧
    (step (Event.connectionFailed ok) s = flush ok (handleConnectionIssue s)) ∧
    (step (Event.suspendDetected ok) s = flush ok (handleConnectionIssue s)) ∧
    (step (Event.errorOccurred true ok) s = flush ok (handleConnectionIssue s)) ∧
    (step (Event.errorOccurred false ok) s = s) ∧
    (∀ m k, s.monitors.lookup m = some k → s.jitsiApi.isSome = true →
      step (Event.probeTick m true true ok) s
        = flush ok (handleConnectionIssueAt k
            { s with monitors := clearInterval m s.monitors })) := by
  refine ⟨rfl, ?_, rfl, rfl, by simp [step], by simp [step], ?_⟩
  · intro hL
    cases hJ : s.jitsiApi <;>
      simp [initializeJitsi, disposeCurrent, hL, hJ]
  · intro m k hm hj
    obtain ⟨a, hJ⟩ := Option.isSome_iff_exists.mp hj
    simp [step, hm, hJ]

/-- C8 (witness): instantiated at the concrete post-start state. -/
theorem c8_error_routing_witness :
    (initializeJitsi false
        (run (initState true) [Event.effectMount true])).connectionStatus
      = ConnStatus.error ∧
    step (Event.probeTick 1 true true true)
        (run (initState true) [Event.effectMount true])
      = flush true (handleConnectionIssueAt 0
          { run (initState true) [Event.effectMount true] with
              monitors := clearInterval 1
                (run (initState true) [Event.effectMount true]).monitors }) :=
  ⟨((c8_error_routing (run (initState true) [Event.effectMount true]) true).2.1
      (by decide)).1,
   (c8_error_routing (run (initState true) [Event.effectMount true])
       true).2.2.2.2.2.2 1 0 (by decide) (by decide)⟩

/-- C9 (counterexample): `left` is not `connected`, yet the view shell
renders no status line for it (the `switch` falls to `default: return
null`), against the claim that every state except `connected` gets one. -/
theorem c9_counterexample :
    ConnStatus.left ≠ ConnStatus.connected ∧
    renderConnectionStatus ConnStatus.left 0 = none ∧
    (renderComponent
      { initState true with connectionStatus := ConnStatus.left }).statusLine
      = none := by
  decide

/-- C9 (amended): the widget mount element is always rendered, and a
status line is rendered exactly for `connecting`, `reconnecting`,
`error` and `failed` — not for `connected`, `left` or `closed`. -/
theorem c9_amended (s : CtrlState) :
    (renderComponent s).mountElement = true ∧
    ((renderComponent s).statusLine.isSome = true ↔
      (s.connectionStatus = ConnStatus.connecting ∨
       s.connectionStatus = ConnStatus.reconnecting ∨
       s.connectionStatus = ConnStatus.error ∨
       s.connectionStatus = ConnStatus.failed)) := by
  cases hS : s.connectionStatus <;>
    simp [renderComponent, renderConnectionStatus, hS]

/-- C10: constructing the component with only a `roomName` resolves the
documented defaults, which flow into the constructor arguments: display
name "User" in `userInfo`, domain "meet.jit.si" as the API domain, and
both mute flags false in `configOverwrite`. -/
theorem c10_defaults (r : String) :
    (resolveProps ⟨r, none, none, none, none⟩).displayName = "User" ∧
    (resolveProps ⟨r, none, none, none, none⟩).domain = "meet.jit.si" ∧
    apiDomain (resolveProps ⟨r, none, none, none, none⟩) = "meet.jit.si" ∧
    (jitsiOptions (resolveProps ⟨r, none, none, none, none⟩)).userInfoDisplayName
      = "User" ∧
    (jitsiOptions (resolveProps ⟨r, none, none, none, none⟩)).startWithAudioMuted
      = false ∧
    (jitsiOptions (resolveProps ⟨r, none, none, none, none⟩)).startWithVideoMuted
      = false ∧
    (jitsiOptions (resolveProps ⟨r, none, none, none, none⟩)).roomName = r :=
  ⟨rfl, rfl, rfl, rfl, rfl, rfl, rfl⟩

end JitsiWrapper
